import Mathlib

/-!
Shallow embedding of the cloth simulator in `src/instable-connection/dist/script.js`
(current, four-material variant) and of the older three-material variant in
`src/unnamed/part_000`, which differs only in its material table, iteration
dispatch and floor-collision response.

Modelling conventions:
* JavaScript numbers are modelled by `ℚ`.  All arithmetic the claims speak
  about is exact (the claims concern formulas, flags, counts and guards, not
  rounding), with one exception: IEEE special values (Infinity/NaN) matter for
  the degenerate zero-distance constraint, so a second, value-faithful model
  `JVal` with IEEE extended arithmetic is given for that computation.
  Note that in Lean `q / 0 = 0` on `ℚ`, which does NOT match JavaScript
  (`q / 0 = Infinity` for `q > 0`); no theorem below about the `ℚ` model
  depends on the value of a division by zero.
* `Math.sqrt` / `Math.hypot` are irrational in general, so the embedding is
  parametrised by a square-root function `s : ℚ → ℚ`; structural theorems hold
  for every `s`, and value theorems take the specification of `s` they need as
  a hypothesis (satisfiable, e.g. by `sqrtQ` below, which is exact on squares).
  `Math.hypot dx dy` is modelled as `s (dx*dx + dy*dy)`.
* The particle and constraint arrays are `List`s; the in-place object mutation
  of the JS code becomes `List.set` at the corresponding index, performed in
  the same order as the source so that later reads see earlier writes
  (Gauss-Seidel).
-/

/-- MaterialProfile: the per-material configuration object of the `MATERIALS`
table (script.js lines 21-62).  The table stores name, color, friction,
gravity, stiffness, particlesX, particlesY and mouseInfluence; there is no
`iterations` field (the iteration count is derived from `name` inside
`updatePhysics`). -/
structure Config where
  name : String
  color : ℕ
  friction : ℚ
  gravity : ℚ
  stiffness : ℚ
  particlesX : ℕ
  particlesY : ℕ
  mouseInfluence : ℚ
deriving DecidableEq, Repr

/-- Particle record (script.js lines 100-106). -/
structure Particle where
  x : ℚ
  y : ℚ
  oldx : ℚ
  oldy : ℚ
  pinned : Bool
deriving DecidableEq, Repr

instance : Inhabited Particle := ⟨⟨0, 0, 0, 0, false⟩⟩

/-- Constraint record (script.js line 131). -/
structure Constraint where
  p1 : ℕ
  p2 : ℕ
  length : ℚ
  active : Bool
deriving DecidableEq, Repr

instance : Inhabited Constraint := ⟨⟨0, 0, 0, true⟩⟩

/-- Simulation state: the `particles` and `constraints` arrays of a `Cloth`. -/
structure ClothState where
  particles : List Particle
  constraints : List Constraint
deriving DecidableEq, Repr

/-- MATERIALS.DENIM (script.js lines 22-31). -/
def DENIM : Config :=
  { name := "Denim", color := 0x6688cc, friction := 90/100, gravity := 35/100,
    stiffness := 1, particlesX := 15, particlesY := 20, mouseInfluence := 5/100 }

/-- MATERIALS.LINEN (script.js lines 32-41). -/
def LINEN : Config :=
  { name := "Linen", color := 0xdddddd, friction := 96/100, gravity := 25/100,
    stiffness := 9/10, particlesX := 25, particlesY := 35, mouseInfluence := 1/10 }

/-- MATERIALS.SILK (script.js lines 42-51). -/
def SILK : Config :=
  { name := "Silk", color := 0xff66cc, friction := 995/1000, gravity := 1/10,
    stiffness := 1, particlesX := 45, particlesY := 60, mouseInfluence := 2/10 }

/-- MATERIALS.ULTRA_SILK (script.js lines 52-61). -/
def ULTRA_SILK : Config :=
  { name := "Ultra Silk", color := 0x9932cc, friction := 998/1000, gravity := 6/100,
    stiffness := 95/100, particlesX := 60, particlesY := 80, mouseInfluence := 3/10 }

/-- Global constant CLOTH_WIDTH = 250 (script.js line 18). -/
def CLOTH_WIDTH : ℚ := 250

/-- Global constant CLOTH_HEIGHT = 350 (script.js line 19). -/
def CLOTH_HEIGHT : ℚ := 350

/-- Row-major 2D-to-1D index: `getIdx` (script.js line 111). -/
def getIdx (cfg : Config) (x y : ℕ) : ℕ := y * cfg.particlesX + x

/-- Particle generation loop of `Cloth.init` (script.js lines 96-108): row-major
nested loops over y then x; row 0 is pinned; `oldx`/`oldy` start equal to the
position (zero initial velocity). -/
def initParticles (cfg : Config) (offsetX : ℚ) : List Particle :=
  (List.range cfg.particlesY).flatMap (fun y : ℕ =>
    (List.range cfg.particlesX).map (fun x : ℕ =>
      { x := offsetX + (x : ℚ) * (CLOTH_WIDTH / (cfg.particlesX : ℚ))
        y := -250 + (y : ℚ) * (CLOTH_HEIGHT / (cfg.particlesY : ℚ))
        oldx := offsetX + (x : ℚ) * (CLOTH_WIDTH / (cfg.particlesX : ℚ))
        oldy := -250 + (y : ℚ) * (CLOTH_HEIGHT / (cfg.particlesY : ℚ))
        pinned := y == 0 }))

/-- Cloth.addConstraint (script.js lines 127-132): looks up both endpoint
particles and records the current Euclidean distance (`Math.hypot`) as the
rest length; the constraint starts active. -/
def addConstraint (s : ℚ → ℚ) (ps : List Particle) (p1Idx p2Idx : ℕ) : Constraint :=
  let p1 := ps.getD p1Idx default
  let p2 := ps.getD p2Idx default
  let dist := s ((p1.x - p2.x) * (p1.x - p2.x) + (p1.y - p2.y) * (p1.y - p2.y))
  { p1 := p1Idx, p2 := p2Idx, length := dist, active := true }

/-- Constraint generation loop of `Cloth.init` (script.js lines 113-123):
for each grid cell, a constraint to the right neighbour when `x <
particlesX - 1` and to the bottom neighbour when `y < particlesY - 1`. -/
def initConstraints (s : ℚ → ℚ) (cfg : Config) (ps : List Particle) : List Constraint :=
  (List.range cfg.particlesY).flatMap (fun y =>
    (List.range cfg.particlesX).flatMap (fun x =>
      (if x < cfg.particlesX - 1
        then [addConstraint s ps (getIdx cfg x y) (getIdx cfg (x+1) y)] else []) ++
      (if y < cfg.particlesY - 1
        then [addConstraint s ps (getIdx cfg x y) (getIdx cfg x (y+1))] else [])))

/-- Cloth.init (script.js lines 85-125): discards the previous `particles` and
`constraints` arrays and rebuilds them from the config and offset alone.  The
prior state argument is ignored, exactly as the source assigns fresh arrays. -/
def clothInit (s : ℚ → ℚ) (cfg : Config) (offsetX : ℚ) (_prior : ClothState) : ClothState :=
  let ps := initParticles cfg offsetX
  { particles := ps, constraints := initConstraints s cfg ps }

/-- Iteration-count dispatch of `Cloth.updatePhysics` (script.js lines 138-139):
a runtime string comparison on `config.name`, not a field read. -/
def iterationCount (cfg : Config) : ℕ :=
  if cfg.name = "Ultra Silk" then 12 else if cfg.name = "Silk" then 8 else 4

/-- In-place guarded position update `if (!p.pinned) { p.x += ddx; p.y += ddy }`
applied to the particle at index `k` (the JS code mutates a shared object, so
the value is read at update time; `-=` is rendered as adding the negated
offset, which is exact). -/
def moveBy (k : ℕ) (ddx ddy : ℚ) (ps : List Particle) : List Particle :=
  let q := ps.getD k default
  if q.pinned then ps else ps.set k { q with x := q.x + ddx, y := q.y + ddy }

/-- Body of the inner relaxation loop (script.js lines 143-162) for one
constraint.  NOTE: the source has no zero-distance guard; `diff` divides by
`dist` unconditionally.  In this `ℚ` model a division by zero yields 0 (Lean
convention); the IEEE-faithful behaviour at `dist = 0` is treated separately
in the `JVal` model below.  The two endpoint writes happen in source order:
`p1` is updated first, then `p2` (reading the array after that write, as the
JS object mutation does). -/
def relaxConstraint (s : ℚ → ℚ) (cfg : Config) (ps : List Particle) (c : Constraint) :
    List Particle :=
  if !c.active then ps else
  let p1 := ps.getD c.p1 default
  let p2 := ps.getD c.p2 default
  let dx := p1.x - p2.x
  let dy := p1.y - p2.y
  let dist := s (dx * dx + dy * dy)
  let diff := (c.length - dist) / dist * cfg.stiffness
  let correction := diff * (1/2)
  let offX := dx * correction
  let offY := dy * correction
  moveBy c.p2 (-offX) (-offY) (moveBy c.p1 offX offY ps)

/-- One relaxation pass (script.js lines 142-163): visits every constraint once
in creation order, updating particles in place (Gauss-Seidel). -/
def relaxPass (s : ℚ → ℚ) (cfg : Config) (cs : List Constraint) (ps : List Particle) :
    List Particle :=
  cs.foldl (relaxConstraint s cfg) ps

/-- Outer relaxation loop (script.js line 141): `k` passes. -/
def relaxLoop (s : ℚ → ℚ) (cfg : Config) (cs : List Constraint) :
    ℕ → List Particle → List Particle
  | 0, ps => ps
  | n + 1, ps => relaxLoop s cfg cs n (relaxPass s cfg cs ps)

/-- Verlet integration with floor response for one particle
(script.js lines 167-202, the upgraded floor law with `floorDamping = 0.1`
and horizontal factor 0.4). -/
def integrate (cfg : Config) (p : Particle) : Particle :=
  if p.pinned then p else
  let vx := (p.x - p.oldx) * cfg.friction
  let vy := (p.y - p.oldy) * cfg.friction
  let oldx := p.x
  let oldy := p.y
  let x := p.x + vx
  let y := p.y + vy + cfg.gravity
  if y > 300 then
    { x := x, y := 300,
      oldx := x - vx * (4/10),
      oldy := if vy > 0 then 300 - vy * (1/10) else 300,
      pinned := p.pinned }
  else
    { x := x, y := y, oldx := oldx, oldy := oldy, pinned := p.pinned }

/-- Cloth.updatePhysics (script.js lines 134-204): `iterationCount` relaxation
passes followed by integration of every particle; the constraints array is not
touched. -/
def updatePhysics (s : ℚ → ℚ) (cfg : Config) (st : ClothState) : ClothState :=
  let relaxed := relaxLoop s cfg st.constraints (iterationCount cfg) st.particles
  { st with particles := relaxed.map (integrate cfg) }

/-- Verlet integration with the simple floor response of the older variant
(`src/unnamed/part_000` lines 155-173): on floor contact, `oldy = y + vy`. -/
def integrateSimple (cfg : Config) (p : Particle) : Particle :=
  if p.pinned then p else
  let vx := (p.x - p.oldx) * cfg.friction
  let vy := (p.y - p.oldy) * cfg.friction
  let oldx := p.x
  let oldy := p.y
  let x := p.x + vx
  let y := p.y + vy + cfg.gravity
  if y > 300 then
    { x := x, y := 300, oldx := oldx, oldy := 300 + vy, pinned := p.pinned }
  else
    { x := x, y := y, oldx := oldx, oldy := oldy, pinned := p.pinned }

/-- lineIntersect (script.js lines 275-281): parametric segment-segment
intersection; zero denominator (parallel or collinear) reports no
intersection. -/
def lineIntersect (x1 y1 x2 y2 x3 y3 x4 y4 : ℚ) : Bool :=
  let denom := (y4 - y3) * (x2 - x1) - (x4 - x3) * (y2 - y1)
  if denom = 0 then false else
  let ua := ((x4 - x3) * (y1 - y3) - (y4 - y3) * (x1 - x3)) / denom
  let ub := ((x2 - x1) * (y1 - y3) - (y2 - y1) * (x1 - x3)) / denom
  ua ≥ 0 && ua ≤ 1 && ub ≥ 0 && ub ≤ 1

/-- Per-constraint body of applyCut (script.js lines 285-293): an active
constraint whose current endpoint segment intersects the cut segment is
deactivated; nothing else changes. -/
def cutConstraint (ps : List Particle) (mx1 my1 mx2 my2 : ℚ) (c : Constraint) : Constraint :=
  if !c.active then c else
  let p1 := ps.getD c.p1 default
  let p2 := ps.getD c.p2 default
  if lineIntersect mx1 my1 mx2 my2 p1.x p1.y p2.x p2.y then
    { c with active := false }
  else c

/-- applyCut restricted to one cloth (script.js lines 283-295), i.e. the
cutAlongSegment operation with cut segment `(mx1,my1)-(mx2,my2)`. -/
def applyCut (mx1 my1 mx2 my2 : ℚ) (st : ClothState) : ClothState :=
  { st with constraints := st.constraints.map (cutConstraint st.particles mx1 my1 mx2 my2) }

/-- Per-particle body of applyWind (script.js lines 300-311). -/
def windParticle (s : ℚ → ℚ) (cfg : Config) (mx my : ℚ) (p : Particle) : Particle :=
  let dx := p.x - mx
  let dy := p.y - my
  let dist := s (dx * dx + dy * dy)
  if dist < 80 then
    if p.pinned then p else
    let strength := (80 - dist) / 80 * cfg.mouseInfluence
    { p with x := p.x + dx * strength, y := p.y + dy * strength }
  else p

/-- applyWind (script.js lines 297-313), i.e. the applyRadialImpulse operation
with centre `(mx,my)` and fixed radius 80. -/
def applyWind (s : ℚ → ℚ) (cfg : Config) (mx my : ℚ) (st : ClothState) : ClothState :=
  { st with particles := st.particles.map (windParticle s cfg mx my) }

/-- One runtime operation on a cloth, as reachable from the animation loop and
the event handlers: a physics step, a cut along a segment, or a radial wind
impulse. -/
inductive Op where
  | step : Op
  | cut : ℚ → ℚ → ℚ → ℚ → Op
  | wind : ℚ → ℚ → Op
deriving DecidableEq, Repr

/-- Apply one operation to the state. -/
def applyOp (s : ℚ → ℚ) (cfg : Config) (st : ClothState) : Op → ClothState
  | Op.step => updatePhysics s cfg st
  | Op.cut a b c d => applyCut a b c d st
  | Op.wind mx my => applyWind s cfg mx my st

/-- Run a sequence of operations left to right. -/
def runOps (s : ℚ → ℚ) (cfg : Config) (ops : List Op) (st : ClothState) : ClothState :=
  ops.foldl (applyOp s cfg) st

/-- Computable rational square root used to instantiate the abstract
square-root parameter in witnesses: exact on squares of nonnegative
rationals. -/
def sqrtQ (q : ℚ) : ℚ :=
  if q < 0 then 0 else (Nat.sqrt q.num.toNat : ℚ) / (Nat.sqrt q.den : ℚ)

/-!
IEEE-faithful value model.  JavaScript numbers carry the special values
Infinity, -Infinity and NaN, which the `ℚ` model above cannot represent; they
matter exactly once, in the zero-distance constraint of `updatePhysics` where
the source divides by `dist` without a guard.  `JVal` models a JS number as a
finite rational or one of the special values, with the IEEE 754 rules for the
operations the relaxation uses (exact finite arithmetic; rounding is
irrelevant to the presence of NaN).  Division uses the sign conventions for a
positive zero denominator, which is the only zero that can arise here
(`Math.sqrt` of a positive zero sum). -/
inductive JVal where
  | fin : ℚ → JVal
  | inf : JVal
  | ninf : JVal
  | nan : JVal
deriving DecidableEq, Repr

instance : Inhabited JVal := ⟨JVal.fin 0⟩

/-- IEEE addition on `JVal`. -/
def jAdd : JVal → JVal → JVal
  | JVal.nan, _ => JVal.nan
  | _, JVal.nan => JVal.nan
  | JVal.inf, JVal.ninf => JVal.nan
  | JVal.ninf, JVal.inf => JVal.nan
  | JVal.inf, _ => JVal.inf
  | _, JVal.inf => JVal.inf
  | JVal.ninf, _ => JVal.ninf
  | _, JVal.ninf => JVal.ninf
  | JVal.fin a, JVal.fin b => JVal.fin (a + b)

/-- IEEE negation on `JVal`. -/
def jNeg : JVal → JVal
  | JVal.fin a => JVal.fin (-a)
  | JVal.inf => JVal.ninf
  | JVal.ninf => JVal.inf
  | JVal.nan => JVal.nan

/-- IEEE subtraction on `JVal`. -/
def jSub (a b : JVal) : JVal := jAdd a (jNeg b)

/-- IEEE multiplication on `JVal`; note `0 * Infinity = NaN`. -/
def jMul : JVal → JVal → JVal
  | JVal.nan, _ => JVal.nan
  | _, JVal.nan => JVal.nan
  | JVal.fin a, JVal.fin b => JVal.fin (a * b)
  | JVal.inf, JVal.inf => JVal.inf
  | JVal.inf, JVal.ninf => JVal.ninf
  | JVal.ninf, JVal.inf => JVal.ninf
  | JVal.ninf, JVal.ninf => JVal.inf
  | JVal.inf, JVal.fin a => if a > 0 then JVal.inf else if a < 0 then JVal.ninf else JVal.nan
  | JVal.fin a, JVal.inf => if a > 0 then JVal.inf else if a < 0 then JVal.ninf else JVal.nan
  | JVal.ninf, JVal.fin a => if a > 0 then JVal.ninf else if a < 0 then JVal.inf else JVal.nan
  | JVal.fin a, JVal.ninf => if a > 0 then JVal.ninf else if a < 0 then JVal.inf else JVal.nan

/-- IEEE division on `JVal` (positive-zero denominator conventions):
`a / 0 = Infinity` for `a > 0`, `-Infinity` for `a < 0`, `NaN` for `a = 0`. -/
def jDiv : JVal → JVal → JVal
  | JVal.nan, _ => JVal.nan
  | _, JVal.nan => JVal.nan
  | JVal.fin a, JVal.fin b =>
      if b = 0 then (if a = 0 then JVal.nan else if a > 0 then JVal.inf else JVal.ninf)
      else JVal.fin (a / b)
  | JVal.fin _, JVal.inf => JVal.fin 0
  | JVal.fin _, JVal.ninf => JVal.fin 0
  | JVal.inf, JVal.fin b => if b < 0 then JVal.ninf else JVal.inf
  | JVal.ninf, JVal.fin b => if b < 0 then JVal.inf else JVal.ninf
  | JVal.inf, _ => JVal.nan
  | JVal.ninf, _ => JVal.nan

/-- Math.sqrt on `JVal`, parametrised by the finite square root `s`. -/
def jSqrt (s : ℚ → ℚ) : JVal → JVal
  | JVal.fin q => if q < 0 then JVal.nan else JVal.fin (s q)
  | JVal.inf => JVal.inf
  | JVal.ninf => JVal.nan
  | JVal.nan => JVal.nan

/-- JavaScript strict greater-than on `JVal`: every comparison involving NaN
is false. -/
def jGt : JVal → JVal → Bool
  | JVal.nan, _ => false
  | _, JVal.nan => false
  | JVal.fin a, JVal.fin b => a > b
  | JVal.inf, JVal.inf => false
  | JVal.inf, _ => true
  | JVal.ninf, _ => false
  | JVal.fin _, JVal.inf => false
  | JVal.fin _, JVal.ninf => true

/-- Particle with IEEE-modelled coordinates. -/
structure JParticle where
  x : JVal
  y : JVal
  oldx : JVal
  oldy : JVal
  pinned : Bool
deriving DecidableEq, Repr

instance : Inhabited JParticle := ⟨⟨JVal.fin 0, JVal.fin 0, JVal.fin 0, JVal.fin 0, false⟩⟩

/-- Constraint with IEEE-modelled rest length. -/
structure JConstraint where
  p1 : ℕ
  p2 : ℕ
  length : JVal
  active : Bool
deriving DecidableEq, Repr

/-- Simulation state over IEEE-modelled numbers. -/
structure JState where
  particles : List JParticle
  constraints : List JConstraint
deriving DecidableEq, Repr

/-- IEEE-faithful rendering of the relaxation body (script.js lines 143-162):
identical structure to `relaxConstraint`, but over `JVal`; in particular the
division `(c.length - dist) / dist` is still unguarded. -/
def jsRelaxConstraint (s : ℚ → ℚ) (cfg : Config) (ps : List JParticle) (c : JConstraint) :
    List JParticle :=
  if !c.active then ps else
  let p1 := ps.getD c.p1 default
  let p2 := ps.getD c.p2 default
  let dx := jSub p1.x p2.x
  let dy := jSub p1.y p2.y
  let dist := jSqrt s (jAdd (jMul dx dx) (jMul dy dy))
  let diff := jMul (jDiv (jSub c.length dist) dist) (JVal.fin cfg.stiffness)
  let correction := jMul diff (JVal.fin (1/2))
  let offX := jMul dx correction
  let offY := jMul dy correction
  let ps1 := if p1.pinned then ps else
    ps.set c.p1 { p1 with x := jAdd p1.x offX, y := jAdd p1.y offY }
  if p2.pinned then ps1 else
    let q2 := ps1.getD c.p2 default
    ps1.set c.p2 { q2 with x := jSub q2.x offX, y := jSub q2.y offY }

/-- IEEE-faithful Verlet integration with the upgraded floor response
(script.js lines 167-202); the floor test `p.y > 300` is JS `>`, false on
NaN. -/
def jsIntegrate (cfg : Config) (p : JParticle) : JParticle :=
  if p.pinned then p else
  let vx := jMul (jSub p.x p.oldx) (JVal.fin cfg.friction)
  let vy := jMul (jSub p.y p.oldy) (JVal.fin cfg.friction)
  let x := jAdd p.x vx
  let y := jAdd (jAdd p.y vy) (JVal.fin cfg.gravity)
  if jGt y (JVal.fin 300) then
    { x := x, y := JVal.fin 300,
      oldx := jSub x (jMul vx (JVal.fin (4/10))),
      oldy := if jGt vy (JVal.fin 0) then jSub (JVal.fin 300) (jMul vy (JVal.fin (1/10)))
              else JVal.fin 300,
      pinned := p.pinned }
  else
    { x := x, y := y, oldx := p.x, oldy := p.y, pinned := p.pinned }

/-- IEEE-faithful relaxation loop of `updatePhysics`. -/
def jsRelaxLoop (s : ℚ → ℚ) (cfg : Config) (cs : List JConstraint) :
    ℕ → List JParticle → List JParticle
  | 0, ps => ps
  | n + 1, ps => jsRelaxLoop s cfg cs n (cs.foldl (jsRelaxConstraint s cfg) ps)

/-- IEEE-faithful Cloth.updatePhysics (script.js lines 134-204). -/
def jsUpdatePhysics (s : ℚ → ℚ) (cfg : Config) (st : JState) : JState :=
  let relaxed := jsRelaxLoop s cfg st.constraints (iterationCount cfg) st.particles
  { st with particles := relaxed.map (jsIntegrate cfg) }

/-- Two unpinned coincident particles joined by one active constraint of rest
length 10: the degenerate configuration of spec §4.2 / §8 (Degenerate
safety). -/
def coincidentState : JState :=
  { particles :=
      [ ⟨JVal.fin 0, JVal.fin 0, JVal.fin 0, JVal.fin 0, false⟩,
        ⟨JVal.fin 0, JVal.fin 0, JVal.fin 0, JVal.fin 0, false⟩ ],
    constraints := [⟨0, 1, JVal.fin 10, true⟩] }

/-- Grid with a single horizontal constraint spanning (0,0)-(10,0), the
configuration of the spec §8 cut-correctness test. -/
def cutDemoState : ClothState :=
  { particles := [⟨0, 0, 0, 0, false⟩, ⟨10, 0, 10, 0, false⟩],
    constraints := [⟨0, 1, 10, true⟩] }

/-- Small two-particle state with particle 0 pinned, for concrete witnesses. -/
def pinDemoState : ClothState :=
  { particles := [⟨1, 2, 1, 2, true⟩, ⟨3, 4, 3, 4, false⟩],
    constraints := [⟨0, 1, 5, true⟩] }

/-- Small state holding one already-inactive constraint, for concrete
witnesses. -/
def inactiveDemoState : ClothState :=
  { particles := [⟨0, 0, 0, 0, false⟩, ⟨3, 0, 3, 0, false⟩],
    constraints := [⟨0, 1, 3, false⟩] }

/-!
Helper lemmas.
-/

theorem getD_of_getElem? {α : Type} [Inhabited α] {l : List α} {j : ℕ} {a : α}
    (h : l[j]? = some a) : l.getD j default = a := by
  rw [List.getD_eq_getElem?_getD, h]
  rfl

/-- Setting an index whose occupant is unpinned cannot disturb a pinned
entry. -/
theorem set_keeps_pinned_entry {ps : List Particle} {k j : ℕ} {v p : Particle}
    (hj : ps[j]? = some p) (hp : p.pinned = true)
    (hk : (ps.getD k default).pinned = false) :
    (ps.set k v)[j]? = some p := by
  rcases eq_or_ne k j with rfl | hne
  · rw [getD_of_getElem? hj, hp] at hk
    exact absurd hk (by simp)
  · rw [List.getElem?_set_ne hne]
    exact hj

/-- Setting an index to a value with the occupant's pinned flag preserves the
pinned flag at every index. -/
theorem set_pinned_flags {ps : List Particle} {k : ℕ} {v : Particle}
    (hv : v.pinned = (ps.getD k default).pinned) (j : ℕ) :
    ((ps.set k v)[j]?).map Particle.pinned = (ps[j]?).map Particle.pinned := by
  rw [List.getElem?_set]
  rcases eq_or_ne k j with rfl | hne
  · by_cases hk : k < ps.length
    · have hke : ps[k]? = some ps[k] := List.getElem?_eq_some_iff.mpr ⟨hk, rfl⟩
      rw [if_pos rfl, if_pos hk, hke]
      have hvk : v.pinned = (ps[k]).pinned := by rw [hv, getD_of_getElem? hke]
      simp [hvk]
    · rw [if_pos rfl, if_neg hk, List.getElem?_eq_none (le_of_not_lt hk)]
  · simp only [if_neg hne]

/-- moveBy never disturbs a pinned entry. -/
theorem moveBy_keeps_pinned_entry {ps : List Particle} {k : ℕ} {ddx ddy : ℚ} {j : ℕ}
    {p : Particle} (hj : ps[j]? = some p) (hp : p.pinned = true) :
    (moveBy k ddx ddy ps)[j]? = some p := by
  unfold moveBy
  by_cases hq : (ps.getD k default).pinned = true
  · rw [if_pos hq]; exact hj
  · rw [if_neg hq]
    exact set_keeps_pinned_entry hj hp (by simpa using hq)

/-- moveBy preserves every pinned flag. -/
theorem moveBy_pinned_flags (ps : List Particle) (k : ℕ) (ddx ddy : ℚ) (j : ℕ) :
    ((moveBy k ddx ddy ps)[j]?).map Particle.pinned = (ps[j]?).map Particle.pinned := by
  unfold moveBy
  by_cases hq : (ps.getD k default).pinned = true
  · rw [if_pos hq]
  · rw [if_neg hq]
    exact set_pinned_flags (v := { ps.getD k default with
      x := (ps.getD k default).x + ddx, y := (ps.getD k default).y + ddy }) rfl j

/-- moveBy preserves the particle count. -/
theorem moveBy_length (ps : List Particle) (k : ℕ) (ddx ddy : ℚ) :
    (moveBy k ddx ddy ps).length = ps.length := by
  unfold moveBy
  by_cases hq : (ps.getD k default).pinned = true
  · rw [if_pos hq]
  · rw [if_neg hq, List.length_set]

/-- Transfer of pinned flags from a pointwise flag equality to `getD`. -/
theorem getD_pinned_of_flags {ps qs : List Particle}
    (h : ∀ j : ℕ, (qs[j]?).map Particle.pinned = (ps[j]?).map Particle.pinned) (k : ℕ) :
    (qs.getD k default).pinned = (ps.getD k default).pinned := by
  have hk := h k
  rw [List.getD_eq_getElem?_getD, List.getD_eq_getElem?_getD]
  cases hq : qs[k]? with
  | none =>
      cases hp2 : ps[k]? with
      | none => rfl
      | some b => rw [hq, hp2] at hk; exact absurd hk (by simp)
  | some a =>
      cases hp2 : ps[k]? with
      | none => rw [hq, hp2] at hk; exact absurd hk (by simp)
      | some b =>
          rw [hq, hp2] at hk
          simpa using hk

/-- An inactive constraint contributes no correction: the relaxation body is
the identity on the particle array (script.js line 144). -/
theorem relaxConstraint_inactive (s : ℚ → ℚ) (cfg : Config) (ps : List Particle)
    (c : Constraint) (hc : c.active = false) :
    relaxConstraint s cfg ps c = ps := by
  simp [relaxConstraint, hc]

/-- Relaxation of one constraint never disturbs a pinned entry. -/
theorem relaxConstraint_keeps_pinned_entry (s : ℚ → ℚ) (cfg : Config)
    {ps : List Particle} {c : Constraint} {j : ℕ} {p : Particle}
    (hj : ps[j]? = some p) (hp : p.pinned = true) :
    (relaxConstraint s cfg ps c)[j]? = some p := by
  unfold relaxConstraint
  by_cases hc : (!c.active) = true
  · rw [if_pos hc]; exact hj
  · rw [if_neg hc]
    exact moveBy_keeps_pinned_entry (moveBy_keeps_pinned_entry hj hp) hp

/-- Relaxation of one constraint preserves every pinned flag. -/
theorem relaxConstraint_pinned_flags (s : ℚ → ℚ) (cfg : Config) (ps : List Particle)
    (c : Constraint) (j : ℕ) :
    ((relaxConstraint s cfg ps c)[j]?).map Particle.pinned = (ps[j]?).map Particle.pinned := by
  unfold relaxConstraint
  by_cases hc : (!c.active) = true
  · rw [if_pos hc]
  · rw [if_neg hc]
    exact (moveBy_pinned_flags _ _ _ _ j).trans (moveBy_pinned_flags _ _ _ _ j)

/-- Relaxation of one constraint preserves the particle count. -/
theorem relaxConstraint_length (s : ℚ → ℚ) (cfg : Config) (ps : List Particle)
    (c : Constraint) :
    (relaxConstraint s cfg ps c).length = ps.length := by
  unfold relaxConstraint
  by_cases hc : (!c.active) = true
  · rw [if_pos hc]
  · rw [if_neg hc]
    exact (moveBy_length _ _ _ _).trans (moveBy_length _ _ _ _)

/-- One relaxation pass never disturbs a pinned entry. -/
theorem relaxPass_keeps_pinned_entry (s : ℚ → ℚ) (cfg : Config) (cs : List Constraint)
    {ps : List Particle} {j : ℕ} {p : Particle}
    (hj : ps[j]? = some p) (hp : p.pinned = true) :
    (relaxPass s cfg cs ps)[j]? = some p := by
  induction cs generalizing ps with
  | nil => exact hj
  | cons c cs ih => exact ih (relaxConstraint_keeps_pinned_entry s cfg hj hp)

/-- One relaxation pass preserves every pinned flag. -/
theorem relaxPass_pinned_flags (s : ℚ → ℚ) (cfg : Config) (cs : List Constraint)
    (ps : List Particle) (j : ℕ) :
    ((relaxPass s cfg cs ps)[j]?).map Particle.pinned = (ps[j]?).map Particle.pinned := by
  induction cs generalizing ps with
  | nil => rfl
  | cons c cs ih => exact (ih _).trans (relaxConstraint_pinned_flags s cfg ps c j)

/-- One relaxation pass preserves the particle count. -/
theorem relaxPass_length (s : ℚ → ℚ) (cfg : Config) (cs : List Constraint)
    (ps : List Particle) :
    (relaxPass s cfg cs ps).length = ps.length := by
  induction cs generalizing ps with
  | nil => rfl
  | cons c cs ih => exact (ih _).trans (relaxConstraint_length s cfg ps c)

/-- The full relaxation loop never disturbs a pinned entry. -/
theorem relaxLoop_keeps_pinned_entry (s : ℚ → ℚ) (cfg : Config) (cs : List Constraint)
    (n : ℕ) {ps : List Particle} {j : ℕ} {p : Particle}
    (hj : ps[j]? = some p) (hp : p.pinned = true) :
    (relaxLoop s cfg cs n ps)[j]? = some p := by
  induction n generalizing ps with
  | zero => exact hj
  | succ n ih => exact ih (relaxPass_keeps_pinned_entry s cfg cs hj hp)

/-- The full relaxation loop preserves every pinned flag. -/
theorem relaxLoop_pinned_flags (s : ℚ → ℚ) (cfg : Config) (cs : List Constraint)
    (n : ℕ) (ps : List Particle) (j : ℕ) :
    ((relaxLoop s cfg cs n ps)[j]?).map Particle.pinned = (ps[j]?).map Particle.pinned := by
  induction n generalizing ps with
  | zero => rfl
  | succ n ih => exact (ih _).trans (relaxPass_pinned_flags s cfg cs ps j)

/-- The full relaxation loop preserves the particle count. -/
theorem relaxLoop_length (s : ℚ → ℚ) (cfg : Config) (cs : List Constraint)
    (n : ℕ) (ps : List Particle) :
    (relaxLoop s cfg cs n ps).length = ps.length := by
  induction n generalizing ps with
  | zero => rfl
  | succ n ih => exact (ih _).trans (relaxPass_length s cfg cs ps)

/-- Integration skips pinned particles entirely (script.js line 169). -/
theorem integrate_pinned_particle (cfg : Config) (p : Particle) (hp : p.pinned = true) :
    integrate cfg p = p := by
  simp [integrate, hp]

/-- Integration preserves the pinned flag. -/
theorem integrate_pinned_flag (cfg : Config) (p : Particle) :
    (integrate cfg p).pinned = p.pinned := by
  unfold integrate
  by_cases hp : p.pinned = true
  · rw [if_pos hp]
  · rw [if_neg hp]
    dsimp only
    split <;> rfl

/-- The wind operator skips pinned particles (script.js line 306). -/
theorem windParticle_pinned_particle (s : ℚ → ℚ) (cfg : Config) (mx my : ℚ)
    (p : Particle) (hp : p.pinned = true) :
    windParticle s cfg mx my p = p := by
  unfold windParticle
  dsimp only
  split <;> simp [hp]

/-- The wind operator preserves the pinned flag. -/
theorem windParticle_pinned_flag (s : ℚ → ℚ) (cfg : Config) (mx my : ℚ) (p : Particle) :
    (windParticle s cfg mx my p).pinned = p.pinned := by
  unfold windParticle
  dsimp only
  by_cases hp : p.pinned = true <;> split <;> simp [hp]

/-- Any single runtime operation keeps a pinned particle's record unchanged. -/
theorem applyOp_keeps_pinned_entry (s : ℚ → ℚ) (cfg : Config) (st : ClothState) (op : Op)
    {j : ℕ} {p : Particle} (hj : st.particles[j]? = some p) (hp : p.pinned = true) :
    (applyOp s cfg st op).particles[j]? = some p := by
  cases op with
  | step =>
      have h1 := relaxLoop_keeps_pinned_entry s cfg st.constraints (iterationCount cfg) hj hp
      show ((relaxLoop s cfg st.constraints (iterationCount cfg) st.particles).map
        (integrate cfg))[j]? = some p
      rw [List.getElem?_map, h1]
      simp [integrate_pinned_particle cfg p hp]
  | cut a b c d => exact hj
  | wind mx my =>
      show (st.particles.map (windParticle s cfg mx my))[j]? = some p
      rw [List.getElem?_map, hj]
      simp [windParticle_pinned_particle s cfg mx my p hp]

/-- Any operation sequence keeps a pinned particle's record unchanged. -/
theorem runOps_keeps_pinned_entry (s : ℚ → ℚ) (cfg : Config) (ops : List Op)
    {st : ClothState} {j : ℕ} {p : Particle}
    (hj : st.particles[j]? = some p) (hp : p.pinned = true) :
    (runOps s cfg ops st).particles[j]? = some p := by
  induction ops generalizing st with
  | nil => exact hj
  | cons op ops ih => exact ih (applyOp_keeps_pinned_entry s cfg st op hj hp)

/-- Any single runtime operation keeps an inactive constraint's record
unchanged. -/
theorem applyOp_keeps_inactive (s : ℚ → ℚ) (cfg : Config) (st : ClothState) (op : Op)
    {i : ℕ} {c : Constraint} (hi : st.constraints[i]? = some c) (hc : c.active = false) :
    (applyOp s cfg st op).constraints[i]? = some c := by
  cases op with
  | step => exact hi
  | wind mx my => exact hi
  | cut a b c2 d2 =>
      show (st.constraints.map (cutConstraint st.particles a b c2 d2))[i]? = some c
      rw [List.getElem?_map, hi]
      simp [cutConstraint, hc]

/-- Any operation sequence keeps an inactive constraint's record unchanged. -/
theorem runOps_keeps_inactive (s : ℚ → ℚ) (cfg : Config) (ops : List Op)
    {st : ClothState} {i : ℕ} {c : Constraint}
    (hi : st.constraints[i]? = some c) (hc : c.active = false) :
    (runOps s cfg ops st).constraints[i]? = some c := by
  induction ops generalizing st with
  | nil => exact hi
  | cons op ops ih => exact ih (applyOp_keeps_inactive s cfg st op hi hc)

/-- The relaxation loop written with recursion equals iterated passes. -/
theorem relaxLoop_eq_iterate (s : ℚ → ℚ) (cfg : Config) (cs : List Constraint)
    (n : ℕ) (ps : List Particle) :
    relaxLoop s cfg cs n ps = (relaxPass s cfg cs)^[n] ps := by
  induction n generalizing ps with
  | zero => rfl
  | succ n ih =>
      rw [Function.iterate_succ_apply]
      exact ih _

/-!
Claim theorems.
-/

/-- C2: for every operation sequence made of step, cutAlongSegment and
applyRadialImpulse calls, a particle whose pinned flag is true keeps exactly
its record (in particular its position); applied with a reset-produced state
this says a pinned particle keeps the position it was given at reset time. -/
theorem pinned_particles_never_move (s : ℚ → ℚ) (cfg : Config) (ops : List Op)
    (st : ClothState) {j : ℕ} {p : Particle}
    (hj : st.particles[j]? = some p) (hp : p.pinned = true) :
    (runOps s cfg ops st).particles[j]? = some p :=
  runOps_keeps_pinned_entry s cfg ops hj hp

/-- Witness for C2 at a concrete pinned particle and a concrete operation
sequence. -/
theorem pinned_particles_never_move_witness :
    pinDemoState.particles[0]? = some ⟨1, 2, 1, 2, true⟩ ∧
    (Particle.pinned ⟨1, 2, 1, 2, true⟩) = true ∧
    (runOps sqrtQ DENIM [Op.step, Op.wind 0 0, Op.cut 0 0 1 1]
      pinDemoState).particles[0]? = some ⟨1, 2, 1, 2, true⟩ :=
  ⟨rfl, rfl,
    pinned_particles_never_move sqrtQ DENIM [Op.step, Op.wind 0 0, Op.cut 0 0 1 1]
      pinDemoState rfl rfl⟩

/-- C3: once a constraint's active flag is false, no sequence of step,
cutAlongSegment and applyRadialImpulse calls ever changes its record (in
particular it never becomes active again), and an inactive constraint
contributes no position correction in any relaxation pass. -/
theorem cut_is_permanent_and_inactive_inert (s : ℚ → ℚ) (cfg : Config) (ops : List Op)
    (st : ClothState) {i : ℕ} {c : Constraint}
    (hi : st.constraints[i]? = some c) (hc : c.active = false) :
    (runOps s cfg ops st).constraints[i]? = some c ∧
    ∀ ps : List Particle, relaxConstraint s cfg ps c = ps :=
  ⟨runOps_keeps_inactive s cfg ops hi hc,
   fun ps => relaxConstraint_inactive s cfg ps c hc⟩

/-- Witness for C3 at a concrete inactive constraint. -/
theorem cut_is_permanent_and_inactive_inert_witness :
    inactiveDemoState.constraints[0]? = some ⟨0, 1, 3, false⟩ ∧
    (Constraint.active ⟨0, 1, 3, false⟩) = false ∧
    (runOps sqrtQ DENIM [Op.step, Op.cut 1 (-1) 1 1, Op.wind 0 0]
      inactiveDemoState).constraints[0]? = some ⟨0, 1, 3, false⟩ ∧
    relaxConstraint sqrtQ DENIM inactiveDemoState.particles ⟨0, 1, 3, false⟩ =
      inactiveDemoState.particles :=
  ⟨rfl, rfl,
    (cut_is_permanent_and_inactive_inert sqrtQ DENIM
      [Op.step, Op.cut 1 (-1) 1 1, Op.wind 0 0] inactiveDemoState
      (i := 0) (c := ⟨0, 1, 3, false⟩) rfl rfl).1,
    (cut_is_permanent_and_inactive_inert sqrtQ DENIM
      [Op.step, Op.cut 1 (-1) 1 1, Op.wind 0 0] inactiveDemoState
      (i := 0) (c := ⟨0, 1, 3, false⟩) rfl rfl).2
      inactiveDemoState.particles⟩

/-- C9: reset ignores the prior state entirely (the source assigns fresh
arrays), hence calling it twice in a row, or from any two prior states, with
the same profile and offset produces identical particle and constraint
arrays. -/
theorem reset_is_idempotent (s : ℚ → ℚ) (cfg : Config) (off : ℚ) (st1 st2 : ClothState) :
    clothInit s cfg off (clothInit s cfg off st1) = clothInit s cfg off st1 ∧
    clothInit s cfg off st1 = clothInit s cfg off st2 :=
  ⟨rfl, rfl⟩

/-- C10: step modifies only particle positions and previous positions — the
whole constraints array (endpoint indices, rest lengths, active flags) is
unchanged, the particle count is unchanged, and every particle's pinned flag
is unchanged. -/
theorem step_frame_condition (s : ℚ → ℚ) (cfg : Config) (st : ClothState) :
    (updatePhysics s cfg st).constraints = st.constraints ∧
    (updatePhysics s cfg st).particles.length = st.particles.length ∧
    ∀ j : ℕ, ((updatePhysics s cfg st).particles[j]?).map Particle.pinned =
      (st.particles[j]?).map Particle.pinned := by
  refine ⟨rfl, ?_, ?_⟩
  · show ((relaxLoop s cfg st.constraints (iterationCount cfg) st.particles).map
      (integrate cfg)).length = st.particles.length
    rw [List.length_map]
    exact relaxLoop_length s cfg st.constraints (iterationCount cfg) st.particles
  · intro j
    have h1 : (updatePhysics s cfg st).particles[j]? =
        ((relaxLoop s cfg st.constraints (iterationCount cfg) st.particles)[j]?).map
          (integrate cfg) := by
      show ((relaxLoop s cfg st.constraints (iterationCount cfg) st.particles).map
        (integrate cfg))[j]? = _
      rw [List.getElem?_map]
    have h2 := relaxLoop_pinned_flags s cfg st.constraints (iterationCount cfg)
      st.particles j
    rw [h1, ← h2]
    cases (relaxLoop s cfg st.constraints (iterationCount cfg) st.particles)[j]? with
    | none => rfl
    | some a => simp [integrate_pinned_flag]

/-- C6 counterexample: the iteration count is not a field of the profile —
two profiles identical in every stored coefficient field and differing only in
the name string get different pass counts, because `updatePhysics` derives the
count from a runtime name comparison. -/
theorem iteration_count_not_a_profile_field :
    iterationCount { SILK with name := "Denim" } = 4 ∧
    iterationCount SILK = 8 ∧
    ({ SILK with name := "Denim" } : Config).friction = SILK.friction ∧
    ({ SILK with name := "Denim" } : Config).gravity = SILK.gravity ∧
    ({ SILK with name := "Denim" } : Config).stiffness = SILK.stiffness ∧
    ({ SILK with name := "Denim" } : Config).particlesX = SILK.particlesX ∧
    ({ SILK with name := "Denim" } : Config).particlesY = SILK.particlesY ∧
    ({ SILK with name := "Denim" } : Config).mouseInfluence = SILK.mouseInfluence ∧
    ({ SILK with name := "Denim" } : Config).color = SILK.color := by
  refine ⟨?_, ?_, rfl, rfl, rfl, rfl, rfl, rfl, rfl⟩ <;> rfl

/-- C6 amended: constraint relaxation inside step runs exactly
`iterationCount cfg` passes, where the count is computed from the profile's
name at run time — 12 for Ultra Silk, 8 for Silk and 4 otherwise — rather
than read from a profile field. -/
theorem relaxation_runs_iteration_count_passes (s : ℚ → ℚ) (cfg : Config)
    (st : ClothState) :
    (updatePhysics s cfg st).particles =
      ((relaxPass s cfg st.constraints)^[iterationCount cfg] st.particles).map
        (integrate cfg) ∧
    iterationCount ULTRA_SILK = 12 ∧ iterationCount SILK = 8 ∧
    iterationCount LINEN = 4 ∧ iterationCount DENIM = 4 := by
  refine ⟨?_, rfl, rfl, rfl, rfl⟩
  show (relaxLoop s cfg st.constraints (iterationCount cfg) st.particles).map
    (integrate cfg) = _
  rw [relaxLoop_eq_iterate]

/-- sqrtQ is exact on squares of nonnegative rationals. -/
theorem sqrtQ_mul_self (q : ℚ) (h : 0 ≤ q) : sqrtQ (q * q) = q := by
  have hn : (0 : ℤ) ≤ q.num := Rat.num_nonneg.mpr h
  have hq : ¬ (q * q < 0) := not_lt.mpr (mul_self_nonneg q)
  have hnum : ((q.num.toNat : ℤ)) = q.num := Int.toNat_of_nonneg hn
  have h1 : (q.num * q.num).toNat = q.num.toNat * q.num.toNat := by
    rw [← hnum]
    norm_cast
  rw [sqrtQ, if_neg hq, Rat.mul_self_num, Rat.mul_self_den, h1, Nat.sqrt_eq, Nat.sqrt_eq]
  have h2 : ((q.num.toNat : ℚ)) = ((q.num : ℚ)) := by exact_mod_cast congrArg Int.cast hnum
  rw [h2, Rat.num_div_den]

/-- sqrtQ agrees with Math.sqrt at 0. -/
theorem sqrtQ_zero : sqrtQ 0 = 0 := by
  have h := sqrtQ_mul_self 0 le_rfl
  simpa using h

/-- C4 counterexample: in the older variant (src/unnamed/part_000 lines
168-172) the floor response sets `oldy = y + vy`, so a particle hitting the
floor with downward implied velocity 9 leaves with implied vertical velocity
-9 — the sign is flipped and the magnitude is not attenuated at all — and its
implied horizontal velocity 9 is not damped. -/
theorem simple_variant_floor_reflects_velocity :
    integrateSimple DENIM ⟨10, 299, 0, 289, false⟩ = ⟨19, 300, 10, 309, false⟩ ∧
    ((299 : ℚ) - 289) * DENIM.friction = 9 ∧
    (300 : ℚ) - 309 = -9 ∧
    (19 : ℚ) - 10 = 9 := by
  refine ⟨?_, by norm_num [DENIM], by norm_num, by norm_num⟩
  norm_num [integrateSimple, DENIM]

/-- C4 amended (holds of the current variant, script.js lines 184-202): when
an unpinned particle's post-integration vertical coordinate exceeds 300, the
position is clamped to exactly y = 300; a downward impact velocity vy > 0
leaves next implied vertical velocity exactly vy/10 (attenuation by 90 percent,
at least the required 80 percent) with no sign flip; a non-downward one is
zeroed; and the implied horizontal velocity is damped to exactly 0.4 of vx. -/
theorem floor_collision_clamps_and_damps (cfg : Config) (p : Particle)
    (hpin : p.pinned = false)
    (hfl : p.y + (p.y - p.oldy) * cfg.friction + cfg.gravity > 300) :
    (integrate cfg p).y = 300 ∧
    (0 < (p.y - p.oldy) * cfg.friction →
      (integrate cfg p).y - (integrate cfg p).oldy =
        (p.y - p.oldy) * cfg.friction * (1/10) ∧
      (integrate cfg p).y - (integrate cfg p).oldy ≤
        (p.y - p.oldy) * cfg.friction * (1/5) ∧
      0 ≤ (integrate cfg p).y - (integrate cfg p).oldy) ∧
    ((p.y - p.oldy) * cfg.friction ≤ 0 → (integrate cfg p).oldy = (integrate cfg p).y) ∧
    (integrate cfg p).x - (integrate cfg p).oldx =
      (p.x - p.oldx) * cfg.friction * (4/10) ∧
    |(integrate cfg p).x - (integrate cfg p).oldx| ≤ |(p.x - p.oldx) * cfg.friction| := by
  have hpin' : ¬ (p.pinned = true) := by simp [hpin]
  unfold integrate
  rw [if_neg hpin']
  dsimp only
  rw [if_pos hfl]
  refine ⟨rfl, ?_, ?_, ?_, ?_⟩
  · intro hvy
    rw [if_pos hvy]
    refine ⟨by ring, ?_, ?_⟩
    · have h1 : (300 : ℚ) - (300 - (p.y - p.oldy) * cfg.friction * (1/10)) =
          (p.y - p.oldy) * cfg.friction * (1/10) := by ring
      rw [h1]
      nlinarith
    · have h1 : (300 : ℚ) - (300 - (p.y - p.oldy) * cfg.friction * (1/10)) =
          (p.y - p.oldy) * cfg.friction * (1/10) := by ring
      rw [h1]
      positivity
  · intro hvy
    rw [if_neg (not_lt.mpr hvy)]
  · ring
  · have h1 : p.x + (p.x - p.oldx) * cfg.friction -
        (p.x + (p.x - p.oldx) * cfg.friction - (p.x - p.oldx) * cfg.friction * (4/10)) =
        (p.x - p.oldx) * cfg.friction * (4/10) := by ring
    rw [h1, abs_mul]
    nlinarith [abs_nonneg ((p.x - p.oldx) * cfg.friction),
      abs_of_nonneg (show (0:ℚ) ≤ 4/10 by norm_num)]

/-- Witness for C4 amended at a concrete unpinned particle that crosses the
floor with downward velocity 9. -/
theorem floor_collision_clamps_and_damps_witness :
    (Particle.pinned ⟨10, 299, 0, 289, false⟩) = false ∧
    (299 : ℚ) + ((299 : ℚ) - 289) * DENIM.friction + DENIM.gravity > 300 ∧
    (integrate DENIM ⟨10, 299, 0, 289, false⟩).y = 300 :=
  ⟨rfl, by norm_num [DENIM],
    (floor_collision_clamps_and_damps DENIM ⟨10, 299, 0, 289, false⟩ rfl
      (by norm_num [DENIM])).1⟩

/-- C5: cutAlongSegment deactivates exactly the active constraints whose
current endpoint segment passes the parametric test with both parameters in
[0,1]; a zero denominator (parallel or collinear) reports no intersection; and
on the spec §8 example the crossing segment (5,-5)-(5,5) deactivates the
(0,0)-(10,0) constraint while the non-crossing (5,5)-(5,15) leaves it
active. -/
theorem cut_deactivation_characterisation :
    (∀ (ps : List Particle) (a b e f : ℚ) (k : Constraint),
      cutConstraint ps a b e f k =
        if (k.active && lineIntersect a b e f (ps.getD k.p1 default).x
            (ps.getD k.p1 default).y (ps.getD k.p2 default).x
            (ps.getD k.p2 default).y) = true
        then { k with active := false } else k) ∧
    (∀ (a b e f : ℚ) (st : ClothState),
      (applyCut a b e f st).constraints =
        st.constraints.map (cutConstraint st.particles a b e f) ∧
      (applyCut a b e f st).particles = st.particles) ∧
    (∀ x1 y1 x2 y2 x3 y3 x4 y4 : ℚ,
      (y4 - y3) * (x2 - x1) - (x4 - x3) * (y2 - y1) = 0 →
      lineIntersect x1 y1 x2 y2 x3 y3 x4 y4 = false) ∧
    (applyCut 5 (-5) 5 5 cutDemoState).constraints = [⟨0, 1, 10, false⟩] ∧
    (applyCut 5 5 5 15 cutDemoState).constraints = [⟨0, 1, 10, true⟩] := by
  refine ⟨?_, ?_, ?_, ?_, ?_⟩
  · intro ps a b e f k
    unfold cutConstraint
    by_cases hact : k.active
    · rw [hact]
      dsimp only
      by_cases hli : lineIntersect a b e f (ps.getD k.p1 default).x
          (ps.getD k.p1 default).y (ps.getD k.p2 default).x (ps.getD k.p2 default).y
      · simp [hli]
      · simp [hli]
    · have hact' : k.active = false := by simpa using hact
      simp [hact']
  · intro a b e f st
    exact ⟨rfl, rfl⟩
  · intro x1 y1 x2 y2 x3 y3 x4 y4 h
    unfold lineIntersect
    dsimp only
    rw [if_pos h]
  · norm_num [applyCut, cutDemoState, cutConstraint, lineIntersect]
  · norm_num [applyCut, cutDemoState, cutConstraint, lineIntersect]

/-- Witness for C5 at a concrete collinear pair of segments (zero
denominator). -/
theorem cut_deactivation_characterisation_witness :
    ((2 : ℚ) - 0) * (1 - 0) - ((2 : ℚ) - 0) * (1 - 0) = 0 ∧
    lineIntersect 0 0 1 1 0 0 2 2 = false :=
  ⟨by norm_num,
    cut_deactivation_characterisation.2.2.1 0 0 1 1 0 0 2 2 (by norm_num)⟩

/-- C8: applyRadialImpulse displaces every unpinned particle whose computed
distance to the centre is below 80 by exactly
`delta * ((80 - dist) / 80) * profile.mouseInfluence`; the falloff is 1 when
the particle coincides with the centre (no division by the distance occurs
anywhere, only by the constant 80); pinned particles are unaffected. -/
theorem radial_impulse_formula (s : ℚ → ℚ) (cfg : Config) (mx my : ℚ) (p : Particle) :
    (p.pinned = true → windParticle s cfg mx my p = p) ∧
    (p.pinned = false →
      s ((p.x - mx) * (p.x - mx) + (p.y - my) * (p.y - my)) < 80 →
      windParticle s cfg mx my p =
        { p with
          x := p.x + (p.x - mx) *
            ((80 - s ((p.x - mx) * (p.x - mx) + (p.y - my) * (p.y - my))) / 80 *
              cfg.mouseInfluence),
          y := p.y + (p.y - my) *
            ((80 - s ((p.x - mx) * (p.x - mx) + (p.y - my) * (p.y - my))) / 80 *
              cfg.mouseInfluence) }) ∧
    (s 0 = 0 → p.x = mx → p.y = my →
      (80 - s ((p.x - mx) * (p.x - mx) + (p.y - my) * (p.y - my))) / 80 = 1) := by
  refine ⟨fun hp => windParticle_pinned_particle s cfg mx my p hp, ?_, ?_⟩
  · intro hp hd
    unfold windParticle
    dsimp only
    rw [if_pos hd, if_neg (by simp [hp])]
  · intro hs hx hy
    rw [hx, hy]
    simp [hs]

/-- Witness for C8: an unpinned particle at distance 5 from the centre, a
pinned particle, and a particle coincident with the centre. -/
theorem radial_impulse_formula_witness :
    (Particle.pinned ⟨3, 4, 0, 0, true⟩) = true ∧
    windParticle sqrtQ DENIM 0 0 ⟨3, 4, 0, 0, true⟩ = ⟨3, 4, 0, 0, true⟩ ∧
    sqrtQ (((3 : ℚ) - 0) * ((3 : ℚ) - 0) + ((4 : ℚ) - 0) * ((4 : ℚ) - 0)) < 80 ∧
    windParticle sqrtQ DENIM 0 0 ⟨3, 4, 0, 0, false⟩ =
      ⟨3 + ((3 : ℚ) - 0) *
          ((80 - sqrtQ (((3 : ℚ) - 0) * ((3 : ℚ) - 0) + ((4 : ℚ) - 0) * ((4 : ℚ) - 0))) / 80 *
            DENIM.mouseInfluence),
        4 + ((4 : ℚ) - 0) *
          ((80 - sqrtQ (((3 : ℚ) - 0) * ((3 : ℚ) - 0) + ((4 : ℚ) - 0) * ((4 : ℚ) - 0))) / 80 *
            DENIM.mouseInfluence),
        0, 0, false⟩ ∧
    sqrtQ 0 = 0 ∧
    (80 - sqrtQ (((0 : ℚ) - 0) * ((0 : ℚ) - 0) + ((0 : ℚ) - 0) * ((0 : ℚ) - 0))) / 80 = 1 := by
  have hd : sqrtQ (((3 : ℚ) - 0) * ((3 : ℚ) - 0) + ((4 : ℚ) - 0) * ((4 : ℚ) - 0)) < 80 := by
    have h25 : ((3 : ℚ) - 0) * ((3 : ℚ) - 0) + ((4 : ℚ) - 0) * ((4 : ℚ) - 0) = 5 * 5 := by
      norm_num
    rw [h25, sqrtQ_mul_self 5 (by norm_num)]
    norm_num
  refine ⟨rfl,
    (radial_impulse_formula sqrtQ DENIM 0 0 ⟨3, 4, 0, 0, true⟩).1 rfl,
    hd,
    (radial_impulse_formula sqrtQ DENIM 0 0 ⟨3, 4, 0, 0, false⟩).2.1 rfl hd,
    sqrtQ_zero,
    (radial_impulse_formula sqrtQ DENIM 0 0 ⟨0, 0, 0, 0, false⟩).2.2 sqrtQ_zero rfl rfl⟩

/-- Length of a row-major double loop. -/
theorem grid_flatMap_length {α : Type} (f : ℕ → ℕ → α) (Nx Ny : ℕ) :
    ((List.range Ny).flatMap (fun y => (List.range Nx).map (fun x => f x y))).length =
      Ny * Nx := by
  induction Ny with
  | zero => simp
  | succ n ih =>
      rw [List.range_succ, List.flatMap_append, List.length_append, ih]
      simp [Nat.succ_mul]

/-- Indexing a row-major double loop at `y * Nx + x`. -/
theorem grid_flatMap_getD {α : Type} [Inhabited α] (f : ℕ → ℕ → α) (Nx Ny x y : ℕ)
    (hx : x < Nx) (hy : y < Ny) :
    ((List.range Ny).flatMap (fun j => (List.range Nx).map (fun i => f i j))).getD
      (y * Nx + x) default = f x y := by
  induction Ny with
  | zero => exact absurd hy (Nat.not_lt_zero y)
  | succ n ih =>
      rw [List.range_succ, List.flatMap_append]
      rcases Nat.lt_succ_iff_lt_or_eq.mp hy with hy' | rfl
      · rw [List.getD_append]
        · exact ih hy'
        · rw [grid_flatMap_length]
          calc y * Nx + x < y * Nx + Nx := by omega
            _ = (y + 1) * Nx := by ring
            _ ≤ n * Nx := Nat.mul_le_mul_right Nx hy'
      · rw [List.getD_append_right]
        · simp only [List.flatMap_cons, List.flatMap_nil, List.append_nil]
          rw [grid_flatMap_length]
          have hidx : y * Nx + x - y * Nx = x := by omega
          rw [hidx, List.getD_eq_getElem?_getD, List.getElem?_map, List.getElem?_range hx]
          rfl
        · rw [grid_flatMap_length]
          omega

/-- Position and pin of the grid particle at column x, row y. -/
theorem initParticles_getD (cfg : Config) (off : ℚ) (x y : ℕ)
    (hx : x < cfg.particlesX) (hy : y < cfg.particlesY) :
    (initParticles cfg off).getD (getIdx cfg x y) default =
      { x := off + (x : ℚ) * (CLOTH_WIDTH / (cfg.particlesX : ℚ))
        y := -250 + (y : ℚ) * (CLOTH_HEIGHT / (cfg.particlesY : ℚ))
        oldx := off + (x : ℚ) * (CLOTH_WIDTH / (cfg.particlesX : ℚ))
        oldy := -250 + (y : ℚ) * (CLOTH_HEIGHT / (cfg.particlesY : ℚ))
        pinned := y == 0 } := by
  unfold initParticles getIdx
  exact grid_flatMap_getD
    (fun i j =>
      ({ x := off + (i : ℚ) * (CLOTH_WIDTH / (cfg.particlesX : ℚ))
         y := -250 + (j : ℚ) * (CLOTH_HEIGHT / (cfg.particlesY : ℚ))
         oldx := off + (i : ℚ) * (CLOTH_WIDTH / (cfg.particlesX : ℚ))
         oldy := -250 + (j : ℚ) * (CLOTH_HEIGHT / (cfg.particlesY : ℚ))
         pinned := j == 0 } : Particle))
    cfg.particlesX cfg.particlesY x y hx hy

/-- Length of one row of the constraint-generation loop, generalised over the
loop bound. -/
theorem initConstraints_row_length (s : ℚ → ℚ) (cfg : Config) (ps : List Particle)
    (y : ℕ) (m : ℕ) :
    ((List.range m).flatMap (fun x =>
      (if x < cfg.particlesX - 1
        then [addConstraint s ps (getIdx cfg x y) (getIdx cfg (x+1) y)] else []) ++
      (if y < cfg.particlesY - 1
        then [addConstraint s ps (getIdx cfg x y) (getIdx cfg x (y+1))] else []))).length =
      min m (cfg.particlesX - 1) + m * (if y < cfg.particlesY - 1 then 1 else 0) := by
  induction m with
  | zero => simp
  | succ n ih =>
      rw [List.range_succ, List.flatMap_append, List.length_append, ih]
      simp only [List.flatMap_cons, List.flatMap_nil, List.append_nil, List.length_append]
      by_cases h1 : n < cfg.particlesX - 1 <;>
        by_cases h2 : y < cfg.particlesY - 1 <;>
          simp [h1, h2] <;> omega

/-- Length of the whole constraint-generation loop, generalised over the outer
loop bound. -/
theorem initConstraints_outer_length (s : ℚ → ℚ) (cfg : Config) (ps : List Particle)
    (m : ℕ) :
    ((List.range m).flatMap (fun y =>
      (List.range cfg.particlesX).flatMap (fun x =>
        (if x < cfg.particlesX - 1
          then [addConstraint s ps (getIdx cfg x y) (getIdx cfg (x+1) y)] else []) ++
        (if y < cfg.particlesY - 1
          then [addConstraint s ps (getIdx cfg x y) (getIdx cfg x (y+1))] else [])))).length =
      m * (cfg.particlesX - 1) + (min m (cfg.particlesY - 1)) * cfg.particlesX := by
  induction m with
  | zero => simp
  | succ n ih =>
      rw [List.range_succ, List.flatMap_append, List.length_append, ih,
        List.flatMap_cons, List.flatMap_nil, List.append_nil,
        initConstraints_row_length s cfg ps n cfg.particlesX]
      have hmin : min cfg.particlesX (cfg.particlesX - 1) = cfg.particlesX - 1 := by omega
      by_cases h2 : n < cfg.particlesY - 1
      · have ha : min n (cfg.particlesY - 1) = n := by omega
        have hb : min (n + 1) (cfg.particlesY - 1) = n + 1 := by omega
        rw [hmin, ha, hb, if_pos h2]
        ring
      · have ha : min n (cfg.particlesY - 1) = cfg.particlesY - 1 := by omega
        have hb : min (n + 1) (cfg.particlesY - 1) = cfg.particlesY - 1 := by omega
        rw [hmin, ha, hb, if_neg h2]
        ring

/-- Total constraint count of the generated grid. -/
theorem initConstraints_length (s : ℚ → ℚ) (cfg : Config) (ps : List Particle) :
    (initConstraints s cfg ps).length =
      cfg.particlesX * (cfg.particlesY - 1) + (cfg.particlesX - 1) * cfg.particlesY := by
  unfold initConstraints
  rw [initConstraints_outer_length s cfg ps cfg.particlesY]
  have h1 : min cfg.particlesY (cfg.particlesY - 1) = cfg.particlesY - 1 := by omega
  rw [h1]
  ring

/-- Membership characterisation of the generated constraints: every constraint
joins a grid cell to its right or bottom neighbour. -/
theorem mem_initConstraints (s : ℚ → ℚ) (cfg : Config) (ps : List Particle)
    (c : Constraint) :
    c ∈ initConstraints s cfg ps ↔
      ∃ x y : ℕ, x < cfg.particlesX ∧ y < cfg.particlesY ∧
        ((x < cfg.particlesX - 1 ∧
          c = addConstraint s ps (getIdx cfg x y) (getIdx cfg (x+1) y)) ∨
         (y < cfg.particlesY - 1 ∧
          c = addConstraint s ps (getIdx cfg x y) (getIdx cfg x (y+1)))) := by
  unfold initConstraints
  simp only [List.mem_flatMap, List.mem_range, List.mem_append]
  constructor
  · rintro ⟨y, hy, x, hx, hc⟩
    refine ⟨x, y, hx, hy, ?_⟩
    rcases hc with h | h
    · left
      by_cases hg : x < cfg.particlesX - 1
      · rw [if_pos hg] at h
        simp only [List.mem_singleton] at h
        exact ⟨hg, h⟩
      · rw [if_neg hg] at h
        simp at h
    · right
      by_cases hg : y < cfg.particlesY - 1
      · rw [if_pos hg] at h
        simp only [List.mem_singleton] at h
        exact ⟨hg, h⟩
      · rw [if_neg hg] at h
        simp at h
  · rintro ⟨x, y, hx, hy, h | h⟩
    · exact ⟨y, hy, x, hx, Or.inl (by rw [if_pos h.1]; simp [h.2])⟩
    · exact ⟨y, hy, x, hx, Or.inr (by rw [if_pos h.1]; simp [h.2])⟩

/-- Rest length of a generated right-neighbour constraint. -/
theorem init_right_rest_length (s : ℚ → ℚ) (cfg : Config) (off : ℚ) (x y : ℕ)
    (hx1 : x + 1 < cfg.particlesX) (hy : y < cfg.particlesY)
    (hgx : s ((CLOTH_WIDTH / (cfg.particlesX : ℚ)) * (CLOTH_WIDTH / (cfg.particlesX : ℚ))) =
      CLOTH_WIDTH / (cfg.particlesX : ℚ)) :
    (addConstraint s (initParticles cfg off) (getIdx cfg x y) (getIdx cfg (x+1) y)).length =
      CLOTH_WIDTH / (cfg.particlesX : ℚ) := by
  have hx : x < cfg.particlesX := by omega
  unfold addConstraint
  dsimp only
  rw [initParticles_getD cfg off x y hx hy, initParticles_getD cfg off (x+1) y hx1 hy]
  dsimp only
  push_cast
  ring_nf
  ring_nf at hgx
  exact hgx

/-- Rest length of a generated bottom-neighbour constraint. -/
theorem init_bottom_rest_length (s : ℚ → ℚ) (cfg : Config) (off : ℚ) (x y : ℕ)
    (hx : x < cfg.particlesX) (hy1 : y + 1 < cfg.particlesY)
    (hgy : s ((CLOTH_HEIGHT / (cfg.particlesY : ℚ)) * (CLOTH_HEIGHT / (cfg.particlesY : ℚ))) =
      CLOTH_HEIGHT / (cfg.particlesY : ℚ)) :
    (addConstraint s (initParticles cfg off) (getIdx cfg x y) (getIdx cfg x (y+1))).length =
      CLOTH_HEIGHT / (cfg.particlesY : ℚ) := by
  have hy : y < cfg.particlesY := by omega
  unfold addConstraint
  dsimp only
  rw [initParticles_getD cfg off x y hx hy, initParticles_getD cfg off x (y+1) hx hy1]
  dsimp only
  push_cast
  ring_nf
  ring_nf at hgy
  exact hgy

/-- C7: for a profile with particle counts Nx and Ny, reset creates exactly
Nx*Ny particles and exactly Nx*(Ny-1) + (Nx-1)*Ny constraints, each active
constraint joins a cell to its right or bottom neighbour only (no diagonal
edges), and each constraint's rest length equals the Euclidean distance
between its endpoints' initial positions (the endpoints differ in exactly one
axis-aligned coordinate, by exactly the rest length, which is nonnegative). -/
theorem grid_topology_counts_and_rest_lengths (s : ℚ → ℚ) (cfg : Config) (off : ℚ)
    (prior : ClothState)
    (hgx : s ((CLOTH_WIDTH / (cfg.particlesX : ℚ)) * (CLOTH_WIDTH / (cfg.particlesX : ℚ))) =
      CLOTH_WIDTH / (cfg.particlesX : ℚ))
    (hgy : s ((CLOTH_HEIGHT / (cfg.particlesY : ℚ)) * (CLOTH_HEIGHT / (cfg.particlesY : ℚ))) =
      CLOTH_HEIGHT / (cfg.particlesY : ℚ)) :
    (clothInit s cfg off prior).particles.length = cfg.particlesX * cfg.particlesY ∧
    (clothInit s cfg off prior).constraints.length =
      cfg.particlesX * (cfg.particlesY - 1) + (cfg.particlesX - 1) * cfg.particlesY ∧
    ∀ c ∈ (clothInit s cfg off prior).constraints,
      c.active = true ∧
      ∃ x y : ℕ, x < cfg.particlesX ∧ y < cfg.particlesY ∧ c.p1 = getIdx cfg x y ∧
        ((x + 1 < cfg.particlesX ∧ c.p2 = getIdx cfg (x + 1) y ∧
          0 ≤ c.length ∧
          ((clothInit s cfg off prior).particles.getD c.p2 default).x -
            ((clothInit s cfg off prior).particles.getD c.p1 default).x = c.length ∧
          ((clothInit s cfg off prior).particles.getD c.p2 default).y =
            ((clothInit s cfg off prior).particles.getD c.p1 default).y) ∨
         (y + 1 < cfg.particlesY ∧ c.p2 = getIdx cfg x (y + 1) ∧
          0 ≤ c.length ∧
          ((clothInit s cfg off prior).particles.getD c.p2 default).y -
            ((clothInit s cfg off prior).particles.getD c.p1 default).y = c.length ∧
          ((clothInit s cfg off prior).particles.getD c.p2 default).x =
            ((clothInit s cfg off prior).particles.getD c.p1 default).x)) := by
  refine ⟨?_, ?_, ?_⟩
  · show (initParticles cfg off).length = _
    unfold initParticles
    rw [grid_flatMap_length]
    exact Nat.mul_comm _ _
  · exact initConstraints_length s cfg (initParticles cfg off)
  · intro c hc
    obtain ⟨x, y, hx, hy, hcase⟩ :=
      (mem_initConstraints s cfg (initParticles cfg off) c).mp hc
    rcases hcase with ⟨hg, hceq⟩ | ⟨hg, hceq⟩
    · have hx1 : x + 1 < cfg.particlesX := by omega
      have hlen := init_right_rest_length s cfg off x y hx1 hy hgx
      subst hceq
      refine ⟨rfl, x, y, hx, hy, rfl, Or.inl ⟨hx1, rfl, ?_, ?_, ?_⟩⟩
      · rw [hlen]
        unfold CLOTH_WIDTH
        positivity
      · rw [hlen]
        show ((initParticles cfg off).getD (getIdx cfg (x+1) y) default).x -
          ((initParticles cfg off).getD (getIdx cfg x y) default).x = _
        rw [initParticles_getD cfg off (x+1) y hx1 hy, initParticles_getD cfg off x y hx hy]
        push_cast
        ring
      · show ((initParticles cfg off).getD (getIdx cfg (x+1) y) default).y =
          ((initParticles cfg off).getD (getIdx cfg x y) default).y
        rw [initParticles_getD cfg off (x+1) y hx1 hy, initParticles_getD cfg off x y hx hy]
    · have hy1 : y + 1 < cfg.particlesY := by omega
      have hlen := init_bottom_rest_length s cfg off x y hx hy1 hgy
      subst hceq
      refine ⟨rfl, x, y, hx, hy, rfl, Or.inr ⟨hy1, rfl, ?_, ?_, ?_⟩⟩
      · rw [hlen]
        unfold CLOTH_HEIGHT
        positivity
      · rw [hlen]
        show ((initParticles cfg off).getD (getIdx cfg x (y+1)) default).y -
          ((initParticles cfg off).getD (getIdx cfg x y) default).y = _
        rw [initParticles_getD cfg off x (y+1) hx hy1, initParticles_getD cfg off x y hx hy]
        push_cast
        ring
      · show ((initParticles cfg off).getD (getIdx cfg x (y+1)) default).x =
          ((initParticles cfg off).getD (getIdx cfg x y) default).x
        rw [initParticles_getD cfg off x (y+1) hx hy1, initParticles_getD cfg off x y hx hy]

/-- Witness for C7 at the Denim profile. -/
theorem grid_topology_counts_and_rest_lengths_witness :
    sqrtQ ((CLOTH_WIDTH / (DENIM.particlesX : ℚ)) * (CLOTH_WIDTH / (DENIM.particlesX : ℚ))) =
      CLOTH_WIDTH / (DENIM.particlesX : ℚ) ∧
    sqrtQ ((CLOTH_HEIGHT / (DENIM.particlesY : ℚ)) * (CLOTH_HEIGHT / (DENIM.particlesY : ℚ))) =
      CLOTH_HEIGHT / (DENIM.particlesY : ℚ) ∧
    (clothInit sqrtQ DENIM 0 ⟨[], []⟩).particles.length =
      DENIM.particlesX * DENIM.particlesY ∧
    (clothInit sqrtQ DENIM 0 ⟨[], []⟩).constraints.length =
      DENIM.particlesX * (DENIM.particlesY - 1) + (DENIM.particlesX - 1) * DENIM.particlesY := by
  have hgx : sqrtQ ((CLOTH_WIDTH / (DENIM.particlesX : ℚ)) *
      (CLOTH_WIDTH / (DENIM.particlesX : ℚ))) = CLOTH_WIDTH / (DENIM.particlesX : ℚ) :=
    sqrtQ_mul_self _ (by norm_num [CLOTH_WIDTH, DENIM])
  have hgy : sqrtQ ((CLOTH_HEIGHT / (DENIM.particlesY : ℚ)) *
      (CLOTH_HEIGHT / (DENIM.particlesY : ℚ))) = CLOTH_HEIGHT / (DENIM.particlesY : ℚ) :=
    sqrtQ_mul_self _ (by norm_num [CLOTH_HEIGHT, DENIM])
  exact ⟨hgx, hgy,
    (grid_topology_counts_and_rest_lengths sqrtQ DENIM 0 ⟨[], []⟩ hgx hgy).1,
    (grid_topology_counts_and_rest_lengths sqrtQ DENIM 0 ⟨[], []⟩ hgx hgy).2.1⟩

/-- C1 (code evaluated at the failing input): the relaxation of script.js
lines 149-156 has no zero-distance guard, so for an active constraint whose
two unpinned endpoints coincide (rest length 10), `dist = 0` and the code
computes `diff = (10 - 0)/0 = Infinity`, then `offset = 0 * Infinity = NaN`,
and writes NaN into both particles; after one full `updatePhysics` every
coordinate of both particles is NaN, for any square-root model with
`sqrt 0 = 0` (true of Math.sqrt). -/
theorem step_on_coincident_pair_yields_nan (s : ℚ → ℚ) (hs : s 0 = 0) :
    ((jsUpdatePhysics s DENIM coincidentState).particles.getD 0 default).x = JVal.nan ∧
    ((jsUpdatePhysics s DENIM coincidentState).particles.getD 0 default).y = JVal.nan ∧
    ((jsUpdatePhysics s DENIM coincidentState).particles.getD 1 default).x = JVal.nan ∧
    ((jsUpdatePhysics s DENIM coincidentState).particles.getD 1 default).y = JVal.nan := by
  norm_num [jsUpdatePhysics, iterationCount, DENIM, coincidentState, jsRelaxLoop,
    jsRelaxConstraint, jsIntegrate, jAdd, jSub, jNeg, jMul, jDiv, jSqrt, jGt, hs, List.getD]

/-- Witness for C1 with the concrete square-root model `sqrtQ`. -/
theorem step_on_coincident_pair_yields_nan_witness :
    sqrtQ 0 = 0 ∧
    ((jsUpdatePhysics sqrtQ DENIM coincidentState).particles.getD 0 default).x = JVal.nan :=
  ⟨sqrtQ_zero, (step_on_coincident_pair_yields_nan sqrtQ sqrtQ_zero).1⟩
